import Mathlib

/-!
Verification development for the support-chat subsystem: the SupportWidget component
(end-user side) and the SupportManagement component (operator side), together with the
durable conversation and message records they read and write. All definitions are
shallow embeddings of the corresponding source functions; machine time instants are
modelled as natural numbers and server-assigned identifiers are passed as parameters.
-/

/-- JavaScript String.prototype.trim modelled executably: drop whitespace characters
from both ends of the character list underlying the string. -/
def jsTrim (s : String) : String :=
  ⟨((s.data.dropWhile Char.isWhitespace).reverse.dropWhile Char.isWhitespace).reverse⟩

/-- Sender role of a chat message; the source stores the string literals user, admin
and system in the sender field. -/
inductive Sender
  | user
  | admin
  | system
deriving DecidableEq, Repr

/-- Status of a conversation record; the source stores the string literals new and
read in the status field. -/
inductive ChatStatus
  | new
  | read
deriving DecidableEq, Repr

/-- A chat message record, after the ChatMessage interface of the source. -/
structure ChatMessage where
  id : String
  text : String
  sender : Sender
  timestamp : Nat
deriving DecidableEq, Repr

/-- A conversation record, after the SupportChat interface of the source. -/
structure SupportChat where
  id : String
  userId : String
  userEmail : String
  lastMessage : String
  timestamp : Nat
  status : ChatStatus
deriving DecidableEq, Repr

/-- The authenticated identity as the handlers consume it: a stable uid and an
optional email address. -/
structure UserInfo where
  uid : String
  email : Option String
deriving DecidableEq, Repr

/-- A durable write issued against the document store. The updateChat payload carries
the denormalized last-message text, the timestamp, and an optional status field: a
status of none means the update payload does not mention the status field at all. -/
inductive StoreOp
  | createChat (c : SupportChat)
  | createMessage (chatId : String) (m : ChatMessage)
  | updateChat (chatId : String) (lastMessage : String) (timestamp : Nat)
      (status : Option ChatStatus)
deriving DecidableEq, Repr

/-- The durable store contents relevant to the chat subsystem: the conversation
records and the message records, each message paired with the id of the conversation
whose subcollection holds it. -/
structure Store where
  chats : List SupportChat
  messages : List (String × ChatMessage)
deriving DecidableEq, Repr

/-- Effect of a StoreOp.updateChat payload on a conversation record: updateDoc only
touches the fields present in the payload, so a status of none leaves the stored
status unchanged. -/
def applyUpdate (c : SupportChat) (lm : String) (ts : Nat) (stOpt : Option ChatStatus) :
    SupportChat :=
  { c with lastMessage := lm, timestamp := ts, status := stOpt.getD c.status }

/-- Widget-local state of the SupportWidget component: the useState cells isOpen,
newMessage, isLoginPromptOpen, chatId, messages and unreadCount, and the useRef cell
lastCheckedTimestamp. The counter is an integer because the source holds it in a
plain number cell. -/
structure WidgetState where
  isOpen : Bool
  newMessage : String
  loginPromptOpen : Bool
  chatId : Option String
  messages : List ChatMessage
  unreadCount : Int
  lastChecked : Nat
deriving DecidableEq, Repr

/-- Text of the synthesized first-contact greeting seeded by Effect 1 of the widget. -/
def welcomeText : String :=
  "Hello! Welcome to APNA ADDA Support. How can we assist you today?"

/-- Text of the auto-reply system message of the send pipeline. -/
def autoReplyText : String := "Our agent will shortly assists you..."

/-- The synthesized greeting message seeded by Effect 1 when no conversation exists
and no messages are held in memory. -/
def welcomeMsg : ChatMessage :=
  { id := "welcome-msg", text := welcomeText, sender := Sender.system, timestamp := 0 }

/-- Temporary identifier of the optimistic end-user message, temp- followed by the
current time, as in the source template string. -/
def tempUserId (now : Nat) : String := "temp-" ++ toString now

/-- Temporary identifier of the optimistic system message, temp- followed by the
current time plus one, as in the source template string. -/
def tempSysId (now : Nat) : String := "temp-" ++ toString (now + 1)

/-- The optimistic end-user message inserted by handleSubmit before the durable write. -/
def tempUserMessage (text : String) (now : Nat) : ChatMessage :=
  { id := tempUserId now, text := text, sender := Sender.user, timestamp := now }

/-- The optimistic system message inserted by handleSubmit on a first-contact send. -/
def tempSystemMessage (now : Nat) : ChatMessage :=
  { id := tempSysId now, text := autoReplyText, sender := Sender.system, timestamp := now }

/-- The revert predicate from the catch block of handleSubmit: keep a message unless
its id matches the temporary user message id or, when a temporary system message was
inserted, the temporary system message id. -/
def keepAfterRevert (tuId : String) (tsId : Option String) (m : ChatMessage) : Bool :=
  if m.id = tuId then false
  else
    match tsId with
    | some sid => if m.id = sid then false else true
    | none => true

/-- Rollback of the optimistic update on durable-write failure: filter the current
in-memory list with the revert predicate. -/
def rollbackMessages (cur : List ChatMessage) (tuId : String) (tsId : Option String) :
    List ChatMessage :=
  cur.filter (keepAfterRevert tuId tsId)

/-- JavaScript truthiness of the email field in user.email with the anonymous
fallback: absent or empty email becomes the literal anonymous. -/
def emailOrAnon (email : Option String) : String :=
  match email with
  | none => "anonymous"
  | some e => if e = "" then "anonymous" else e

/-- Durable operations issued by the try block of handleSubmit, in initiation order.
On a first-contact send the conversation creation is awaited first; then the end-user
message insertion, the conversation update and, first contact only, the auto-reply
insertion are initiated in this order (their promises are created in push order). -/
def handleSubmitOps (chatId : Option String) (newChatId mid1 mid2 : String)
    (u : UserInfo) (text : String) (now : Nat) : List StoreOp :=
  match chatId with
  | none =>
      [StoreOp.createChat
         { id := newChatId, userId := u.uid, userEmail := emailOrAnon u.email,
           lastMessage := text, timestamp := now, status := ChatStatus.new },
       StoreOp.createMessage newChatId
         { id := mid1, text := text, sender := Sender.user, timestamp := now },
       StoreOp.updateChat newChatId text now (some ChatStatus.new),
       StoreOp.createMessage newChatId
         { id := mid2, text := autoReplyText, sender := Sender.system, timestamp := now }]
  | some cid =>
      [StoreOp.createMessage cid
         { id := mid1, text := text, sender := Sender.user, timestamp := now },
       StoreOp.updateChat cid text now (some ChatStatus.new)]

/-- The handleSubmit handler of the SupportWidget as a function of the widget state,
the authenticated user, and an injected failure flag standing for the try block
throwing during the durable write. Returns the new widget state, the durable
operations issued in initiation order (empty when the write failed or validation
rejected), and whether the error notice was shown. Server-assigned identifiers for
the new conversation and the inserted messages are the parameters newChatId, mid1 and
mid2; now stands for Date.now and the server timestamp. -/
def handleSubmit (st : WidgetState) (user : Option UserInfo) (fail : Bool)
    (now : Nat) (newChatId mid1 mid2 : String) :
    WidgetState × List StoreOp × Bool :=
  match user with
  | none => (st, [], false)
  | some u =>
    if jsTrim st.newMessage = "" then (st, [], false)
    else
      let text := jsTrim st.newMessage
      let isNewChat := st.chatId.isNone
      let tu := tempUserMessage text now
      let optimistic :=
        if isNewChat then [tu, tempSystemMessage now] else st.messages ++ [tu]
      if fail then
        ({ st with newMessage := "",
                   messages := rollbackMessages optimistic (tempUserId now)
                     (if isNewChat then some (tempSysId now) else none) },
         [], true)
      else
        ({ st with newMessage := "", messages := optimistic,
                   chatId := some (st.chatId.getD newChatId) },
         handleSubmitOps st.chatId newChatId mid1 mid2 u text now,
         false)

/-- Processing of one snapshot of the Effect 3 subscription: for each added change,
when the sender is admin, raise the transient notice and increment the unread
counter; any other sender contributes nothing. Returns the updated counter and the
number of notices raised. -/
def effect3Handler : Int → List ChatMessage → Int × Nat
  | count, [] => (count, 0)
  | count, m :: rest =>
    if m.sender = Sender.admin then
      let r := effect3Handler (count + 1) rest
      (r.1, r.2 + 1)
    else effect3Handler count rest

/-- Timestamp filter of the Effect 3 query: only messages with timestamp strictly
greater than the last-checked cursor are delivered. -/
def effect3Filter (lastChecked : Nat) (msgs : List ChatMessage) : List ChatMessage :=
  msgs.filter (fun m => decide (lastChecked < m.timestamp))

/-- One snapshot delivery of Effect 3: the subscription exists only while the widget
is hidden and a conversation id is resolved, and its query filters by the timestamp
cursor. Returns the updated widget state and the number of transient notices raised. -/
def effect3Snapshot (st : WidgetState) (candidates : List ChatMessage) :
    WidgetState × Nat :=
  if st.isOpen then (st, 0)
  else
    match st.chatId with
    | none => (st, 0)
    | some _ =>
      let r := effect3Handler st.unreadCount (effect3Filter st.lastChecked candidates)
      ({ st with unreadCount := r.1 }, r.2)

/-- The handleSupportIconClick handler: with no signed-in user it opens the login
prompt and returns; otherwise, when the widget is about to open, it zeroes the unread
counter and advances the timestamp cursor to now, and in every signed-in case it
toggles visibility. -/
def handleSupportIconClick (user : Option UserInfo) (now : Nat) (st : WidgetState) :
    WidgetState :=
  match user with
  | none => { st with loginPromptOpen := true }
  | some _ =>
    if st.isOpen then { st with isOpen := false }
    else { st with unreadCount := 0, lastChecked := now, isOpen := true }

/-- Events that mutate the widget-local state in the source component. -/
inductive WEvent
  | typeMessage (s : String)
  | resolve (cid : Option String)
  | click (user : Option UserInfo) (now : Nat)
  | snapshotWhileHidden (candidates : List ChatMessage)
  | submit (user : Option UserInfo) (fail : Bool) (now : Nat) (newChatId mid1 mid2 : String)
  | closeButton

/-- One widget-state transition per event. -/
def widgetStep (st : WidgetState) (e : WEvent) : WidgetState :=
  match e with
  | WEvent.typeMessage s => { st with newMessage := s }
  | WEvent.resolve cid => { st with chatId := cid }
  | WEvent.click user now => handleSupportIconClick user now st
  | WEvent.snapshotWhileHidden candidates => (effect3Snapshot st candidates).1
  | WEvent.submit user fail now a b c => (handleSubmit st user fail now a b c).1
  | WEvent.closeButton => { st with isOpen := false }

/-- Initial widget state from the useState and useRef initial values: closed, empty
input, no prompt, no resolved conversation, no messages, counter zero, cursor at the
mount-time instant. -/
def widgetInit (now0 : Nat) : WidgetState :=
  { isOpen := false, newMessage := "", loginPromptOpen := false, chatId := none,
    messages := [], unreadCount := 0, lastChecked := now0 }

/-- Run of the widget-state machine from the initial state over a list of events. -/
def widgetRun (now0 : Nat) (evs : List WEvent) : WidgetState :=
  evs.foldl widgetStep (widgetInit now0)

/-- The handleSelectChat handler of the operator console: always selects the chat,
and issues a durable status update exactly when the status of the chat is new. The
second component is the durable write, as the target conversation id paired with the
written status value. -/
def handleSelectChat (chat : SupportChat) : Option SupportChat × Option (String × ChatStatus) :=
  (some chat,
   if chat.status = ChatStatus.new then some (chat.id, ChatStatus.read) else none)

/-- Effect of the durable write of handleSelectChat on the selected conversation
record. -/
def applySelectWrite (chat : SupportChat) : SupportChat :=
  match (handleSelectChat chat).2 with
  | some (_, stw) => { chat with status := stw }
  | none => chat

/-- The handleSendReply handler of the operator console: with an empty trimmed reply
or no selected conversation it returns at once; otherwise it clears the input, inserts
the admin message and updates the denormalized conversation fields, with no status
field in the update payload. Returns the reply input and selection after the call,
and the durable operations in initiation order. -/
def handleSendReply (reply : String) (selected : Option SupportChat) (mid : String)
    (now : Nat) : (String × Option SupportChat) × List StoreOp :=
  match selected with
  | none => ((reply, none), [])
  | some chat =>
    if jsTrim reply = "" then ((reply, some chat), [])
    else
      (("", some chat),
       [StoreOp.createMessage chat.id
          { id := mid, text := jsTrim reply, sender := Sender.admin, timestamp := now },
        StoreOp.updateChat chat.id ("Admin: " ++ jsTrim reply) now none])

/-- Removal of every message in the subcollection of the given conversation, the
effect of the committed delete batch of handleDeleteChat. -/
def deleteMessagesOf (s : Store) (cid : String) : Store :=
  { s with messages := s.messages.filter (fun p => !(p.1 == cid)) }

/-- Removal of the conversation record itself, the effect of the final deleteDoc of
handleDeleteChat. -/
def deleteConversationOf (s : Store) (cid : String) : Store :=
  { s with chats := s.chats.filter (fun c => !(c.id == cid)) }

/-- Failure injection points for handleDeleteChat: batchCommit means the atomic batch
commit of the message deletions throws (no record is touched), conversationDelete
means the batch commit succeeded and the subsequent deleteDoc of the conversation
record throws. -/
inductive DeleteFailure
  | batchCommit
  | conversationDelete
deriving DecidableEq, Repr

/-- The handleDeleteChat handler of the operator console: enumerate the messages of
the selected conversation, delete them in one committed batch, then delete the
conversation record with a separate deleteDoc, clearing the selection on success and
surfacing an error (keeping the selection) when either await throws. Returns the
store, the selection after the call, and whether the error notice was shown. -/
def handleDeleteChat (selected : Option SupportChat) (s : Store)
    (failAt : Option DeleteFailure) : Store × Option SupportChat × Bool :=
  match selected with
  | none => (s, none, false)
  | some chat =>
    match failAt with
    | some DeleteFailure.batchCommit => (s, some chat, true)
    | some DeleteFailure.conversationDelete => (deleteMessagesOf s chat.id, some chat, true)
    | none => (deleteConversationOf (deleteMessagesOf s chat.id) chat.id, none, false)

/-! Concrete records used by counterexamples and witnesses. -/

/-- A concrete conversation record used in concrete instances. -/
def chatA : SupportChat :=
  { id := "c1", userId := "u1", userEmail := "u1@example.com", lastMessage := "Hi",
    timestamp := 5, status := ChatStatus.new }

/-- A concrete already-read conversation record used in concrete instances. -/
def chatB : SupportChat :=
  { id := "c2", userId := "u2", userEmail := "u2@example.com", lastMessage := "Yo",
    timestamp := 7, status := ChatStatus.read }

/-- A concrete message record used in concrete instances. -/
def msgA : ChatMessage :=
  { id := "m1", text := "Hi", sender := Sender.user, timestamp := 5 }

/-- A concrete store holding one conversation with one message. -/
def storeA : Store := { chats := [chatA], messages := [("c1", msgA)] }

/-- A concrete user identity used in concrete instances. -/
def userA : UserInfo := { uid := "u1", email := some "u1@example.com" }

/-! Theorems settling the claims. -/

/-- C6: mark-as-read on selection. Selecting a conversation issues a durable write
exactly when its status is new; any write issued targets the selected conversation and
always carries status read, never new; selecting a conversation already read issues no
write; after applying the write of a first selection, a second selection issues no
write at all; and the conversation always becomes the selection. -/
theorem C6_select_mark_read (chat : SupportChat) :
    ((handleSelectChat chat).2 ≠ none ↔ chat.status = ChatStatus.new)
    ∧ (chat.status = ChatStatus.read → (handleSelectChat chat).2 = none)
    ∧ (∀ cid stw, (handleSelectChat chat).2 = some (cid, stw) →
        cid = chat.id ∧ stw = ChatStatus.read)
    ∧ (handleSelectChat (applySelectWrite chat)).2 = none
    ∧ (handleSelectChat chat).1 = some chat := by
  cases hst : chat.status <;>
    simp [handleSelectChat, applySelectWrite, hst]

/-- C6 witness: instantiating the selection theorem at a concrete new conversation and
at a concrete read conversation. -/
theorem C6_select_mark_read_witness :
    ((handleSelectChat chatA).2 = some ("c1", ChatStatus.read)
      → (handleSelectChat chatA).2 ≠ none)
    ∧ (handleSelectChat chatB).2 = none := by
  constructor
  · intro _
    exact ((C6_select_mark_read chatA).1).mpr (by decide)
  · exact (C6_select_mark_read chatB).2.1 (by decide)

/-- C7: operator reply frame. For a reply with non-empty trimmed text and a selected
conversation, handleSendReply issues exactly one message creation, with sender admin
and the trimmed text, followed by exactly one conversation update whose payload sets
lastMessage to the trimmed text prefixed with the Admin marker and the timestamp and
carries no status field; applying that update leaves the stored status unchanged, so a
conversation whose status is read remains read. -/
theorem C7_reply_frame (reply : String) (chat : SupportChat) (mid : String) (now : Nat)
    (hr : jsTrim reply ≠ "") :
    ((handleSendReply reply (some chat) mid now).2 =
       [StoreOp.createMessage chat.id
          { id := mid, text := jsTrim reply, sender := Sender.admin, timestamp := now },
        StoreOp.updateChat chat.id ("Admin: " ++ jsTrim reply) now none])
    ∧ (applyUpdate chat ("Admin: " ++ jsTrim reply) now none).status = chat.status
    ∧ (applyUpdate chat ("Admin: " ++ jsTrim reply) now none).lastMessage
        = "Admin: " ++ jsTrim reply
    ∧ (chat.status = ChatStatus.read →
        (applyUpdate chat ("Admin: " ++ jsTrim reply) now none).status = ChatStatus.read) := by
  refine ⟨?_, rfl, rfl, ?_⟩
  · simp [handleSendReply, hr]
  · intro h
    simp [applyUpdate, h]

/-- C7 witness: the reply frame theorem applied to a concrete read conversation and a
concrete reply text. -/
theorem C7_reply_frame_witness :
    (handleSendReply "Hello, how can I help?" (some chatB) "m9" 11).2 =
      [StoreOp.createMessage "c2"
         { id := "m9", text := "Hello, how can I help?", sender := Sender.admin,
           timestamp := 11 },
       StoreOp.updateChat "c2" "Admin: Hello, how can I help?" 11 none]
    ∧ (applyUpdate chatB "Admin: Hello, how can I help?" 11 none).status = ChatStatus.read := by
  have h := C7_reply_frame "Hello, how can I help?" chatB "m9" 11 (by decide)
  exact ⟨h.1, h.2.2.2 (by decide)⟩

/-- C8: send-pipeline validation. If the trimmed text is empty or no user is signed
in, handleSubmit returns with the widget state unchanged (no optimistic entry), no
durable operation issued, and no error notice shown, in both the failing and the
succeeding durable-write scenario. -/
theorem C8_submit_validation (st : WidgetState) (user : Option UserInfo) (fail : Bool)
    (now : Nat) (a b c : String)
    (h : jsTrim st.newMessage = "" ∨ user = none) :
    handleSubmit st user fail now a b c = (st, [], false) := by
  cases user with
  | none => rfl
  | some u =>
    rcases h with h | h
    · simp [handleSubmit, h]
    · exact absurd h (by simp)

/-- C8 witness: the validation theorem applied to a whitespace-only input with a
signed-in user, and to a non-empty input with no user. -/
theorem C8_submit_validation_witness :
    handleSubmit (widgetInit 0) (some userA) false 3 "c" "m1" "m2" = (widgetInit 0, [], false)
    ∧ handleSubmit { widgetInit 0 with newMessage := "Hi" } none true 3 "c" "m1" "m2"
        = ({ widgetInit 0 with newMessage := "Hi" }, [], false) := by
  constructor
  · exact C8_submit_validation (widgetInit 0) (some userA) false 3 "c" "m1" "m2"
      (Or.inl (by decide))
  · exact C8_submit_validation { widgetInit 0 with newMessage := "Hi" } none true 3 "c" "m1" "m2"
      (Or.inr rfl)

/-- C9: operator reply validation. If the trimmed reply is empty or no conversation is
selected, handleSendReply issues no durable operation and leaves the reply input and
the selection unchanged. -/
theorem C9_reply_validation (reply : String) (selected : Option SupportChat)
    (mid : String) (now : Nat)
    (h : jsTrim reply = "" ∨ selected = none) :
    handleSendReply reply selected mid now = ((reply, selected), []) := by
  cases selected with
  | none => rfl
  | some chat =>
    rcases h with h | h
    · simp [handleSendReply, h]
    · exact absurd h (by simp)

/-- C9 witness: the reply validation theorem applied to a whitespace-only reply with a
selected conversation, and to a non-empty reply with no selection. -/
theorem C9_reply_validation_witness :
    handleSendReply "   " (some chatB) "m9" 11 = (("   ", some chatB), [])
    ∧ handleSendReply "Hi" none "m9" 11 = (("Hi", none), []) := by
  constructor
  · exact C9_reply_validation "   " (some chatB) "m9" 11 (Or.inl (by decide))
  · exact C9_reply_validation "Hi" none "m9" 11 (Or.inr rfl)

/-- C10: clicking the toggle while signed out opens the login prompt and changes
nothing else: visibility, unread counter, timestamp cursor, resolved conversation id,
the in-memory messages and the input text are all unchanged; in particular a hidden
widget stays hidden and no counter or cursor reset occurs. -/
theorem C10_signed_out_click (st : WidgetState) (now : Nat) :
    (handleSupportIconClick none now st).loginPromptOpen = true
    ∧ (handleSupportIconClick none now st).isOpen = st.isOpen
    ∧ (handleSupportIconClick none now st).unreadCount = st.unreadCount
    ∧ (handleSupportIconClick none now st).lastChecked = st.lastChecked
    ∧ (handleSupportIconClick none now st).chatId = st.chatId
    ∧ (handleSupportIconClick none now st).messages = st.messages
    ∧ (handleSupportIconClick none now st).newMessage = st.newMessage
    ∧ (st.isOpen = false → (handleSupportIconClick none now st).isOpen = false) := by
  refine ⟨rfl, rfl, rfl, rfl, rfl, rfl, rfl, ?_⟩
  intro h
  simpa [handleSupportIconClick] using h

/-- C10 witness: the signed-out click theorem applied to a concrete hidden state with
a pending unread count. -/
theorem C10_signed_out_click_witness :
    (handleSupportIconClick none 9 { widgetInit 0 with unreadCount := 2 }).isOpen = false
    ∧ (handleSupportIconClick none 9 { widgetInit 0 with unreadCount := 2 }).unreadCount = 2 := by
  have h := C10_signed_out_click { widgetInit 0 with unreadCount := 2 } 9
  exact ⟨h.2.2.2.2.2.2.2 rfl, h.2.2.1⟩

/-! Helper lemmas about the Effect 3 handler and the widget-state machine. -/

/-- The Effect 3 snapshot handler adds one to the counter per admin-sent change and
raises one notice per admin-sent change. -/
theorem effect3Handler_eq (count : Int) (l : List ChatMessage) :
    effect3Handler count l =
      (count + (l.countP (fun m => m.sender == Sender.admin) : Int),
       l.countP (fun m => m.sender == Sender.admin)) := by
  induction l generalizing count with
  | nil => simp [effect3Handler]
  | cons m rest ih =>
    by_cases h : m.sender = Sender.admin
    · simp only [effect3Handler, if_pos h, ih, List.countP_cons, h]
      simp only [beq_self_eq_true, if_true, Prod.mk.injEq]
      refine ⟨?_, trivial⟩
      push_cast
      omega
    · simp only [effect3Handler, if_neg h, ih, List.countP_cons]
      have hb : (m.sender == Sender.admin) = false := by
        simpa using h
      simp [hb]

/-- One Effect 3 snapshot preserves visibility, and either leaves the counter alone
(inactive subscription) or adds the number of delivered admin messages. -/
theorem effect3Snapshot_preserves (st : WidgetState) (c : List ChatMessage) :
    (effect3Snapshot st c).1.isOpen = st.isOpen
    ∧ ((effect3Snapshot st c).1.unreadCount = st.unreadCount
       ∨ (effect3Snapshot st c).1.unreadCount =
           st.unreadCount + ((effect3Filter st.lastChecked c).countP
             (fun m => m.sender == Sender.admin) : Int)) := by
  unfold effect3Snapshot
  by_cases ho : st.isOpen
  · simp [ho]
  · cases hc : st.chatId with
    | none => simp [ho, hc]
    | some cid => simp [ho, hc, effect3Handler_eq]

/-- The send pipeline never changes visibility or the unread counter. -/
theorem handleSubmit_preserves (st : WidgetState) (user : Option UserInfo) (fail : Bool)
    (now : Nat) (a b c : String) :
    (handleSubmit st user fail now a b c).1.isOpen = st.isOpen
    ∧ (handleSubmit st user fail now a b c).1.unreadCount = st.unreadCount := by
  unfold handleSubmit
  cases user with
  | none => exact ⟨rfl, rfl⟩
  | some u =>
    by_cases h : jsTrim st.newMessage = ""
    · simp [h]
    · by_cases hf : fail <;> simp [h, hf]

/-- Any step of the widget-state machine that turns a hidden widget visible ends with
the unread counter at zero: the only such step is a signed-in click, which zeroes it. -/
theorem widgetStep_hidden_to_visible (s : WidgetState) (e : WEvent)
    (hclosed : s.isOpen = false) (hopen : (widgetStep s e).isOpen = true) :
    (widgetStep s e).unreadCount = 0 := by
  cases e with
  | typeMessage t => exact absurd hopen (by simp [widgetStep, hclosed])
  | resolve cid => exact absurd hopen (by simp [widgetStep, hclosed])
  | closeButton => exact absurd hopen (by simp [widgetStep])
  | snapshotWhileHidden c =>
    exfalso
    have h := (effect3Snapshot_preserves s c).1
    simp only [widgetStep] at hopen
    rw [hopen, hclosed] at h
    exact Bool.noConfusion h
  | submit user fail now a b c =>
    exfalso
    have h := (handleSubmit_preserves s user fail now a b c).1
    simp only [widgetStep] at hopen
    rw [hopen, hclosed] at h
    exact Bool.noConfusion h
  | click user now =>
    cases user with
    | none =>
      exact absurd hopen (by simp [widgetStep, handleSupportIconClick, hclosed])
    | some u =>
      simp [widgetStep, handleSupportIconClick, hclosed]

/-- Every step of the widget-state machine keeps the unread counter non-negative: it
is only ever copied, zeroed, or increased by a count of admin messages. -/
theorem widgetStep_nonneg (s : WidgetState) (e : WEvent) (h : 0 ≤ s.unreadCount) :
    0 ≤ (widgetStep s e).unreadCount := by
  cases e with
  | typeMessage t => exact h
  | resolve cid => exact h
  | closeButton => exact h
  | click user now =>
    cases user with
    | none => exact h
    | some u =>
      by_cases ho : s.isOpen
      · simpa [widgetStep, handleSupportIconClick, ho] using h
      · simp [widgetStep, handleSupportIconClick, ho]
  | snapshotWhileHidden c =>
    rcases (effect3Snapshot_preserves s c).2 with hc | hc
    · simp only [widgetStep]
      rw [hc]
      exact h
    · simp only [widgetStep]
      rw [hc]
      omega
  | submit user fail now a b c =>
    simp only [widgetStep]
    rw [(handleSubmit_preserves s user fail now a b c).2]
    exact h

/-- The unread counter is non-negative in every state reachable from the initial
widget state. -/
theorem widgetRun_nonneg (now0 : Nat) (evs : List WEvent) :
    0 ≤ (widgetRun now0 evs).unreadCount := by
  have hgen : ∀ (l : List WEvent) (s : WidgetState), 0 ≤ s.unreadCount →
      0 ≤ (l.foldl widgetStep s).unreadCount := by
    intro l
    induction l with
    | nil => exact fun s h => h
    | cons e rest ih => exact fun s h => ih _ (widgetStep_nonneg s e h)
  exact hgen evs (widgetInit now0) (by simp [widgetInit])

/-- A concrete admin message used in concrete instances. -/
def adminMsg : ChatMessage :=
  { id := "a1", text := "Reply", sender := Sender.admin, timestamp := 50 }

/-- A concrete hidden widget state with a resolved conversation. -/
def stHidden : WidgetState :=
  { isOpen := false, newMessage := "", loginPromptOpen := false, chatId := some "c1",
    messages := [], unreadCount := 0, lastChecked := 10 }

/-- C4: Notification Watcher. While the widget is hidden and a conversation is
resolved, one snapshot of the timestamp-filtered Effect 3 stream increases the unread
counter by exactly the number of delivered admin-sent messages and raises exactly that
many transient notices; processing a single delivered change increments the counter by
one and raises one notice precisely when its sender is admin; and a message whose
sender is user or system passes the timestamp filter yet contributes neither a counter
increment nor a notice. -/
theorem C4_watcher (st : WidgetState) (cid : String) (candidates : List ChatMessage)
    (hclosed : st.isOpen = false) (hcid : st.chatId = some cid) :
    ((effect3Snapshot st candidates).1.unreadCount =
        st.unreadCount + ((effect3Filter st.lastChecked candidates).countP
          (fun m => m.sender == Sender.admin) : Int)
    ∧ (effect3Snapshot st candidates).2 =
        (effect3Filter st.lastChecked candidates).countP (fun m => m.sender == Sender.admin))
    ∧ (∀ count m, effect3Handler count [m] =
        if m.sender = Sender.admin then (count + 1, 1) else (count, 0))
    ∧ (∀ m, st.lastChecked < m.timestamp → m.sender ≠ Sender.admin →
        m ∈ effect3Filter st.lastChecked [m]
        ∧ effect3Handler st.unreadCount [m] = (st.unreadCount, 0)) := by
  refine ⟨?_, ?_, ?_⟩
  · unfold effect3Snapshot
    simp [hclosed, hcid, effect3Handler_eq]
  · intro count m
    by_cases h : m.sender = Sender.admin <;> simp [effect3Handler, h]
  · intro m ht hs
    constructor
    · simp [effect3Filter, ht]
    · simp [effect3Handler, hs]

/-- C4 witness: the watcher theorem applied to a concrete hidden state, a concrete
admin message and a concrete end-user message. -/
theorem C4_watcher_witness :
    ((effect3Snapshot stHidden [adminMsg]).1.unreadCount = 1
    ∧ (effect3Snapshot stHidden [adminMsg]).2 = 1)
    ∧ effect3Handler 0 [msgA] = (0, 0) := by
  have h := C4_watcher stHidden "c1" [adminMsg] rfl rfl
  refine ⟨⟨?_, ?_⟩, ?_⟩
  · rw [h.1.1]
    decide
  · rw [h.1.2]
    decide
  · rw [h.2.1 0 msgA]
    decide

/-- C5: counter reset and non-negativity. A signed-in click on a hidden widget zeroes
the unread counter, advances the timestamp cursor to now and opens the widget, all in
the same step; every step of the widget-state machine from hidden to visible ends with
the counter exactly zero; and the counter is non-negative in every state reachable
from the initial widget state, being only ever zeroed or incremented. -/
theorem C5_counter_reset (st : WidgetState) (u : UserInfo) (now now0 : Nat)
    (evs : List WEvent) :
    (st.isOpen = false →
      ((handleSupportIconClick (some u) now st).unreadCount = 0
       ∧ (handleSupportIconClick (some u) now st).lastChecked = now
       ∧ (handleSupportIconClick (some u) now st).isOpen = true))
    ∧ (∀ s e, s.isOpen = false → (widgetStep s e).isOpen = true →
        (widgetStep s e).unreadCount = 0)
    ∧ 0 ≤ (widgetRun now0 evs).unreadCount := by
  refine ⟨?_, fun s e => widgetStep_hidden_to_visible s e, widgetRun_nonneg now0 evs⟩
  intro h
  simp [handleSupportIconClick, h]

/-- C5 witness: the counter-reset theorem applied to a concrete hidden state with a
pending unread count and to a concrete event run. -/
theorem C5_counter_reset_witness :
    (handleSupportIconClick (some userA) 7 { stHidden with unreadCount := 3 }).unreadCount = 0
    ∧ (handleSupportIconClick (some userA) 7 { stHidden with unreadCount := 3 }).lastChecked = 7
    ∧ (handleSupportIconClick (some userA) 7 { stHidden with unreadCount := 3 }).isOpen = true
    ∧ 0 ≤ (widgetRun 0 [WEvent.click (some userA) 7]).unreadCount := by
  have h := C5_counter_reset { stHidden with unreadCount := 3 } userA 7 0
      [WEvent.click (some userA) 7]
  exact ⟨(h.1 rfl).1, (h.1 rfl).2.1, (h.1 rfl).2.2, h.2.2⟩

/-! Helper lemmas about the rollback filter of the send pipeline. -/

/-- Rollback after an append of the temporary user entry restores the previous list
exactly, provided no previous message carries the temporary id. -/
theorem rollback_append_of_fresh (l : List ChatMessage) (tuId : String) (tu : ChatMessage)
    (htu : tu.id = tuId) (h : ∀ m ∈ l, m.id ≠ tuId) :
    rollbackMessages (l ++ [tu]) tuId none = l := by
  unfold rollbackMessages
  rw [List.filter_append]
  have h1 : l.filter (keepAfterRevert tuId none) = l :=
    List.filter_eq_self.mpr (fun m hm => by simp [keepAfterRevert, h m hm])
  have h2 : [tu].filter (keepAfterRevert tuId none) = [] := by
    simp [keepAfterRevert, htu]
  rw [h1, h2, List.append_nil]

/-- Rollback of the two-element optimistic list of a first-contact send removes both
temporary entries, leaving the empty list. -/
theorem rollback_pair (tuId tsId : String) (tu ts : ChatMessage)
    (htu : tu.id = tuId) (hts : ts.id = tsId) :
    rollbackMessages [tu, ts] tuId (some tsId) = [] := by
  by_cases h : ts.id = tuId <;>
    simp [rollbackMessages, keepAfterRevert, htu, hts, h]

/-- A concrete confirmed message already in the list before an existing-chat send. -/
def confirmedMsg : ChatMessage :=
  { id := "m0", text := "Old", sender := Sender.admin, timestamp := 1 }

/-- A concrete widget state mid-session: open widget, resolved conversation, one
confirmed message, text typed into the input. -/
def stExisting : WidgetState :=
  { isOpen := true, newMessage := " hello ", loginPromptOpen := false,
    chatId := some "c1", messages := [confirmedMsg], unreadCount := 0, lastChecked := 0 }

/-- A concrete widget state right before a first-contact send: no resolved
conversation and the synthesized greeting in memory. -/
def stFirstContact : WidgetState :=
  { isOpen := true, newMessage := "Hi", loginPromptOpen := false, chatId := none,
    messages := [welcomeMsg], unreadCount := 0, lastChecked := 0 }

/-- C2: counterexample. In the first-contact case the optimistic update replaces the
whole in-memory list with the two temporary entries, so when the durable write fails
the revert filter leaves the empty list, not the pre-send list that held the
synthesized greeting: the post-failure list differs from the pre-send list. -/
theorem C2_counterexample :
    (handleSubmit stFirstContact (some userA) true 100 "nc" "m1" "m2").1.messages = []
    ∧ stFirstContact.messages = [welcomeMsg]
    ∧ (handleSubmit stFirstContact (some userA) true 100 "nc" "m1" "m2").1.messages
        ≠ stFirstContact.messages := by
  decide

/-- C2 (amended): when the durable write fails, the rollback removes exactly the
temporary-id entries from the in-memory list. In the existing-conversation case,
provided the temporary user id does not occur in the pre-send list, the post-failure
list equals the pre-send list exactly, previously-confirmed messages untouched. In the
first-contact case the optimistic update replaces the whole list with the two
temporary entries, so the post-failure list is empty rather than equal to the pre-send
list holding the synthesized greeting. -/
theorem C2_rollback (st : WidgetState) (u : UserInfo) (now : Nat) (a b c : String)
    (hmsg : jsTrim st.newMessage ≠ "")
    (hfresh : ∀ m ∈ st.messages, m.id ≠ tempUserId now) :
    (∀ cid, st.chatId = some cid →
      (handleSubmit st (some u) true now a b c).1.messages = st.messages)
    ∧ (st.chatId = none →
      (handleSubmit st (some u) true now a b c).1.messages = []) := by
  constructor
  · intro cid hc
    simp only [handleSubmit, if_neg hmsg, hc, Option.isNone_some, Bool.false_eq_true,
      if_false, if_true]
    exact rollback_append_of_fresh st.messages (tempUserId now)
      (tempUserMessage (jsTrim st.newMessage) now) rfl hfresh
  · intro hc
    simp only [handleSubmit, if_neg hmsg, hc, Option.isNone_none, if_true]
    exact rollback_pair (tempUserId now) (tempSysId now)
      (tempUserMessage (jsTrim st.newMessage) now) (tempSystemMessage now) rfl rfl

/-- C2 witness: the amended rollback theorem applied to a concrete existing-chat state
with one confirmed message and a failing durable write. -/
theorem C2_rollback_witness :
    (handleSubmit stExisting (some userA) true 100 "nc" "m1" "m2").1.messages
      = stExisting.messages := by
  have h := C2_rollback stExisting userA 100 "nc" "m1" "m2" (by decide) (by decide)
  exact h.1 "c1" rfl

/-- C3: first-contact round trip. With no resolved conversation and a non-empty
trimmed text, the successful send issues exactly these durable operations in
initiation order: create one conversation record with status new and lastMessage the
sent text, create one end-user message carrying the sent text, update the conversation
denormalized fields, and create one system auto-reply message. In particular the
conversation creation precedes the end-user message creation, which precedes the
auto-reply creation, and no other record creation occurs in the run. -/
theorem C3_first_contact (st : WidgetState) (u : UserInfo) (now : Nat)
    (newChatId mid1 mid2 : String)
    (hmsg : jsTrim st.newMessage ≠ "") (hnew : st.chatId = none) :
    ∃ conv um sm,
      (handleSubmit st (some u) false now newChatId mid1 mid2).2.1 =
        [StoreOp.createChat conv,
         StoreOp.createMessage conv.id um,
         StoreOp.updateChat conv.id (jsTrim st.newMessage) now (some ChatStatus.new),
         StoreOp.createMessage conv.id sm]
      ∧ conv.status = ChatStatus.new ∧ conv.lastMessage = jsTrim st.newMessage
      ∧ conv.userId = u.uid
      ∧ um.sender = Sender.user ∧ um.text = jsTrim st.newMessage
      ∧ sm.sender = Sender.system ∧ sm.text = autoReplyText := by
  refine ⟨{ id := newChatId, userId := u.uid, userEmail := emailOrAnon u.email,
            lastMessage := jsTrim st.newMessage, timestamp := now, status := ChatStatus.new },
          { id := mid1, text := jsTrim st.newMessage, sender := Sender.user, timestamp := now },
          { id := mid2, text := autoReplyText, sender := Sender.system, timestamp := now },
          ?_, rfl, rfl, rfl, rfl, rfl, rfl, rfl⟩
  simp [handleSubmit, handleSubmitOps, hnew, if_neg hmsg]

/-- C3 witness: the first-contact theorem applied to a concrete state holding the
greeting, a concrete user and concrete server-assigned identifiers. -/
theorem C3_first_contact_witness :
    ∃ conv um sm,
      (handleSubmit stFirstContact (some userA) false 100 "nc" "m1" "m2").2.1 =
        [StoreOp.createChat conv,
         StoreOp.createMessage conv.id um,
         StoreOp.updateChat conv.id (jsTrim stFirstContact.newMessage) 100
           (some ChatStatus.new),
         StoreOp.createMessage conv.id sm]
      ∧ conv.status = ChatStatus.new ∧ conv.lastMessage = jsTrim stFirstContact.newMessage
      ∧ conv.userId = userA.uid
      ∧ um.sender = Sender.user ∧ um.text = jsTrim stFirstContact.newMessage
      ∧ sm.sender = Sender.system ∧ sm.text = autoReplyText :=
  C3_first_contact stFirstContact userA 100 "nc" "m1" "m2" (by decide) rfl

/-- C1: counterexample. With one conversation holding one message, a failure injected
between the committed batch of message deletions and the separate deletion of the
conversation record leaves an observable settled state in which every message of the
conversation is deleted while its record remains: neither the pre-attempt state nor
full removal, refuting the all-or-nothing property. -/
theorem C1_counterexample :
    (handleDeleteChat (some chatA) storeA (some DeleteFailure.conversationDelete)).1.messages = []
    ∧ (handleDeleteChat (some chatA) storeA (some DeleteFailure.conversationDelete)).1.chats
        = [chatA]
    ∧ (handleDeleteChat (some chatA) storeA (some DeleteFailure.conversationDelete)).1
        ≠ storeA
    ∧ (handleDeleteChat (some chatA) storeA (some DeleteFailure.conversationDelete)).1
        ≠ (handleDeleteChat (some chatA) storeA none).1 := by
  decide

/-- C1 (amended): handleDeleteChat is two-phase rather than all-or-nothing. On success
every message of the selected conversation and its record are removed and the
selection is cleared; a failure at the batch commit leaves the store in its
pre-attempt state with the selection preserved and the error surfaced; and a failure
after the batch commit but before the conversation delete leaves every message of the
conversation deleted while the conversation records are unchanged and the selection is
preserved. -/
theorem C1_two_phase_deletion (chat : SupportChat) (s : Store) :
    (∀ p ∈ (handleDeleteChat (some chat) s none).1.messages, p.1 ≠ chat.id)
    ∧ (∀ c ∈ (handleDeleteChat (some chat) s none).1.chats, c.id ≠ chat.id)
    ∧ (handleDeleteChat (some chat) s none).2.1 = none
    ∧ handleDeleteChat (some chat) s (some DeleteFailure.batchCommit) = (s, some chat, true)
    ∧ (∀ p ∈ (handleDeleteChat (some chat) s
        (some DeleteFailure.conversationDelete)).1.messages, p.1 ≠ chat.id)
    ∧ (handleDeleteChat (some chat) s (some DeleteFailure.conversationDelete)).1.chats
        = s.chats
    ∧ (handleDeleteChat (some chat) s (some DeleteFailure.conversationDelete)).2.1
        = some chat := by
  refine ⟨?_, ?_, rfl, rfl, ?_, rfl, rfl⟩
  · intro p hp
    simp only [handleDeleteChat, deleteConversationOf, deleteMessagesOf] at hp
    have := (List.mem_filter.mp hp).2
    simpa using this
  · intro c hc
    simp only [handleDeleteChat, deleteConversationOf, deleteMessagesOf] at hc
    have := (List.mem_filter.mp hc).2
    simpa using this
  · intro p hp
    simp only [handleDeleteChat, deleteMessagesOf] at hp
    have := (List.mem_filter.mp hp).2
    simpa using this

/-- C1 witness: the two-phase theorem applied to the concrete one-conversation store,
showing the pre-attempt state preserved on batch failure and the message absent from
the store after a successful run. -/
theorem C1_two_phase_deletion_witness :
    (handleDeleteChat (some chatA) storeA (some DeleteFailure.batchCommit)).1 = storeA
    ∧ ("c1", msgA) ∉ (handleDeleteChat (some chatA) storeA none).1.messages := by
  have h := C1_two_phase_deletion chatA storeA
  refine ⟨congrArg Prod.fst h.2.2.2.1, ?_⟩
  intro hmem
  exact h.1 ("c1", msgA) hmem rfl
